import Mathlib

/-! # Verification of the VM management example script (vm/example.py)

The script is a straight-line orchestration of cloud management calls:
it creates a resource group, then inside a try block creates a storage
account, a virtual network, a subnet and a network interface, creates a
Linux VM, tags it, creates an empty managed data disk, attaches it to
the VM and detaches it again, deallocates the VM, resizes its OS disk,
starts, restarts and powers off the VM, lists VMs, deletes the VM and
creates a Windows VM reusing the same network interface.  A CloudError
raised in the try block is caught and reported; a finally block always
deletes the resource group.

We embed the script as a trace-producing function over an abstract
environment (`Env`) that chooses, for every remote call, whether it
succeeds, raises CloudError, or raises some other exception, and that
supplies the values the remote service returns (identifiers, the VM
object returned by the get call, the OS disk returned by disks.get).
Every remote call site of the script becomes a constructor of `Call`
carrying the arguments the script passes at that site.  A long-running
call (an SDK begin_* call immediately followed by .result()) produces
an `issue` event and an `await` event; a synchronous call (the group
create_or_update, the two get calls and the two list calls) produces a
single `issue` event.  A failing call is modelled as surfacing its
exception at the await.  The print statements are not modelled.
-/

namespace VmExample

/-- Disk creation option (azure.mgmt.compute.models.DiskCreateOption). -/
inductive DiskCreateOption where
  | empty
  | attach
  deriving DecidableEq

/-- A data-disk descriptor in a VM storage profile; the fields are the
ones of the dict appended at example.py lines 187-194. -/
structure DataDisk where
  lun : Nat
  name : String
  create_option : DiskCreateOption
  managed_disk_id : String
  deriving DecidableEq

/-- The OS disk reference inside a VM storage profile; the script only
reads its name (example.py line 221). -/
structure OsDiskRef where
  name : String
  deriving DecidableEq

/-- The part of a VM storage profile the script reads and resubmits. -/
structure StorageProfile where
  os_disk : OsDiskRef
  data_disks : List DataDisk
  deriving DecidableEq

/-- The part of a virtual machine object (as returned by
virtual_machines.get) that the script reads and resubmits. -/
structure VirtualMachine where
  name : String
  storage_profile : StorageProfile
  deriving DecidableEq

/-- A managed disk as returned by disks.get: the script reads and
updates name and disk_size_gb (example.py lines 221-235).  The service
may omit the size, hence the Option. -/
structure Disk where
  name : String
  disk_size_gb : Option Nat
  deriving DecidableEq

/-! ## Resource names (example.py lines 29-45)

The Python module generates a single random numeric suffix
(`random.randint(100, 500)`, a variable whose source name is a Lean
keyword, so it is called `pfx` here) and builds most resource names
from it with format strings.  The storage account name is generated by
haikunator independently of the suffix, and is therefore a parameter of
the environment rather than a constant; likewise the admin password
(a fresh uuid4). -/

def GROUP_NAME (pfx : Nat) : String :=
  "azure-sample-group-virtual-machines" ++ toString pfx

def VNET_NAME (pfx : Nat) : String := "azure-sample-vnet" ++ toString pfx

def SUBNET_NAME (pfx : Nat) : String := "azure-sample-subnet" ++ toString pfx

def OS_DISK_NAME (pfx : Nat) : String := "azure-sample-osdisk" ++ toString pfx

def IP_CONFIG_NAME (pfx : Nat) : String := "azure-sample-ip-config" ++ toString pfx

def NIC_NAME (pfx : Nat) : String := "azure-sample-nic" ++ toString pfx

def USERNAME : String := "userlogin"

def VM_NAME (pfx : Nat) : String := "VmName" ++ toString pfx

/-- The two keys of the VM_REFERENCE dict (example.py lines 47-60). -/
inductive OsKind where
  | linux
  | windows
  deriving DecidableEq

/-- An image reference value from the VM_REFERENCE dict. -/
structure ImageReference where
  publisher : String
  offer : String
  sku : String
  version : String
  deriving DecidableEq

/-- VM_REFERENCE (example.py lines 47-60). -/
def VM_REFERENCE : OsKind → ImageReference
  | .linux =>
      { publisher := "Canonical", offer := "UbuntuServer",
        sku := "16.04-LTS", version := "latest" }
  | .windows =>
      { publisher := "MicrosoftWindowsServer", offer := "WindowsServer",
        sku := "2016-Datacenter", version := "latest" }

structure OsProfile where
  computer_name : String
  admin_username : String
  admin_password : String
  deriving DecidableEq

structure HardwareProfile where
  vm_size : String
  deriving DecidableEq

structure StorageProfileParams where
  image_reference : ImageReference
  deriving DecidableEq

structure NicReference where
  id : String
  deriving DecidableEq

structure NetworkProfile where
  network_interfaces : List NicReference
  deriving DecidableEq

/-- The VM parameters structure built by create_vm_parameters. -/
structure VmParameters where
  location : String
  os_profile : OsProfile
  hardware_profile : HardwareProfile
  storage_profile : StorageProfileParams
  network_profile : NetworkProfile
  deriving DecidableEq

/-- create_vm_parameters (example.py lines 337-363).  The source reads
the module globals VM_NAME, USERNAME and PASSWORD; the random suffix
and the random password are passed explicitly here. -/
def create_vm_parameters (pfx : Nat) (password : String) (nic_id : String)
    (vm_reference : ImageReference) (LOCATION : String) : VmParameters :=
  { location := LOCATION
    os_profile :=
      { computer_name := VM_NAME pfx
        admin_username := USERNAME
        admin_password := password }
    hardware_profile := { vm_size := "Standard_DS1_v2" }
    storage_profile := { image_reference := vm_reference }
    network_profile := { network_interfaces := [{ id := nic_id }] } }

/-! ## The attach / detach / resize helpers (pure parts of run_example) -/

/-- The data-disk descriptor appended by the attach step (example.py
lines 187-194). -/
def attachedDataDisk (data_disk_id : String) : DataDisk :=
  { lun := 12, name := "mydatadisk1", create_option := .attach,
    managed_disk_id := data_disk_id }

/-- The attach step's effect on the VM data-disk list: append the new
descriptor (example.py line 187). -/
def attachDataDisks (data_disks : List DataDisk) (data_disk_id : String) :
    List DataDisk :=
  data_disks ++ [attachedDataDisk data_disk_id]

/-- The detach step's effect on the VM data-disk list (example.py line
205): keep exactly the disks whose name differs from "mydatadisk1". -/
def detachDataDisks (data_disks : List DataDisk) : List DataDisk :=
  data_disks.filter (fun disk => disk.name != "mydatadisk1")

/-- Python truthiness of the optional disk size: `not os_disk.disk_size_gb`
is true when the attribute is None or 0 (example.py line 223). -/
def sizeFalsy : Option Nat → Bool
  | none => true
  | some n => n == 0

/-- The OS-disk resize step (example.py lines 221-229): if the reported
size is absent or zero, assume 30 GB, then add 10 GB.  The function is
total: a missing size does not make it fail. -/
def resizeOsDisk (os_disk : Disk) : Disk :=
  let os_disk :=
    if sizeFalsy os_disk.disk_size_gb then
      { os_disk with disk_size_gb := some 30 }
    else os_disk
  { os_disk with disk_size_gb := some (os_disk.disk_size_gb.getD 0 + 10) }

/-! ## Remote call sites -/

/-- One constructor per remote call site of the script, carrying the
arguments the script passes there.  vmCreateOrUpdate covers the two
full-spec virtual_machines.begin_create_or_update sites (Linux and
Windows creation); vmTagUpdate is the tag-only site (lines 150-161,
whose fixed tag dict is not modelled); vmDiskUpdate covers the two
sites that resubmit the VM object with a changed disk list (attach and
detach); diskCreate is the data-disk creation site and diskUpdate the
OS-disk resize site. -/
inductive Call where
  | groupCreate (group location : String)
  | storageCreate (group name sku kind location : String)
  | vnetCreate (group name location addressPrefixes : String)
  | subnetCreate (group vnet name addressPrefix : String)
  | nicCreate (group name location ipConfigName subnetId : String)
  | vmCreateOrUpdate (group name : String) (params : VmParameters)
  | vmTagUpdate (group name location : String)
  | diskCreate (group name location : String) (sizeGb : Nat)
      (create_option : DiskCreateOption)
  | vmGet (group name : String)
  | vmDiskUpdate (group name : String) (data_disks : List DataDisk)
  | vmDeallocate (group name : String)
  | diskGet (group name : String)
  | diskUpdate (group name : String) (disk : Disk)
  | vmStart (group name : String)
  | vmRestart (group name : String)
  | vmPowerOff (group name : String)
  | listAllVms
  | listVmsInGroup (group : String)
  | vmDelete (group name : String)
  | groupDelete (group : String)
  deriving DecidableEq

/-- How a remote call ends: success, a CloudError (caught by the except
clause when raised inside the try block), or any other exception. -/
inductive Outcome where
  | ok
  | cloudError
  | otherError
  deriving DecidableEq

/-- Trace events: a call being issued, and the explicit wait on its
long-running operation (.result()). -/
inductive Event where
  | issue (call : Call)
  | await (call : Call)
  deriving DecidableEq

/-- Whether the call site is a long-running operation, i.e. an SDK
begin_* call whose poller is awaited with .result().  The group
create_or_update (line 116), the two get calls and the two list
iterations are synchronous. -/
def isLRO : Call → Bool
  | .groupCreate _ _ => false
  | .vmGet _ _ => false
  | .diskGet _ _ => false
  | .listAllVms => false
  | .listVmsInGroup _ => false
  | _ => true

/-- The events one call site contributes to the trace. -/
def stepEvents (c : Call) : List Event :=
  if isLRO c then [.issue c, .await c] else [.issue c]

/-- Events of a list of call sites, all succeeding. -/
def eventsOf : List Call → List Event
  | [] => []
  | c :: cs => stepEvents c ++ eventsOf cs

/-- The NIC object returned by create_nic; the script only uses its id. -/
structure NetworkInterface where
  id : String
  deriving DecidableEq

/-- The abstract environment: the outcome of every remote call, the
module-level random values, and the values the service returns.
vmFromGet is the VM returned by virtual_machines.get (line 180);
detachResult is the VM returned by awaiting the detach update (line
211, the script rebinds virtual_machine to it); osDiskFromGet is the
disk returned by disks.get (line 222). -/
structure Env where
  outcome : Call → Outcome
  pfx : Nat
  location : String
  storage_account_name : String
  password : String
  subnetId : String
  nicId : String
  dataDiskId : String
  vmFromGet : VirtualMachine
  detachResult : VirtualMachine
  osDiskFromGet : Disk

/-- Run a list of call sites in order, stopping at the first failure;
returns the emitted events and the outcome of the last call run. -/
def runSteps (env : Env) : List Call → List Event × Outcome
  | [] => ([], .ok)
  | c :: cs =>
      match env.outcome c with
      | .ok =>
          let r := runSteps env cs
          (stepEvents c ++ r.1, r.2)
      | .cloudError => (stepEvents c, .cloudError)
      | .otherError => (stepEvents c, .otherError)

/-- The virtual-network creation site (example.py lines 297-307). -/
def vnetStep (env : Env) : Call :=
  .vnetCreate (GROUP_NAME env.pfx) (VNET_NAME env.pfx) env.location "10.0.0.0/16"

/-- The subnet creation site (example.py lines 311-317). -/
def subnetStep (env : Env) : Call :=
  .subnetCreate (GROUP_NAME env.pfx) (VNET_NAME env.pfx) (SUBNET_NAME env.pfx)
    "10.0.0.0/24"

/-- The interface creation site (example.py lines 321-334); its body
references the id of the subnet returned by the previous await. -/
def nicStep (env : Env) : Call :=
  .nicCreate (GROUP_NAME env.pfx) (NIC_NAME env.pfx) env.location
    (IP_CONFIG_NAME env.pfx) env.subnetId

/-- The three sequential creations performed by create_nic. -/
def nicSteps (env : Env) : List Call :=
  [vnetStep env, subnetStep env, nicStep env]

/-- create_nic (example.py lines 292-334): three sequential long-running
creations; any failure propagates (no result is returned). -/
def create_nic (env : Env) : List Event × Option NetworkInterface :=
  ((runSteps env (nicSteps env)).1,
    match (runSteps env (nicSteps env)).2 with
    | .ok => some { id := env.nicId }
    | .cloudError => none
    | .otherError => none)

/-- The call sites of the try block of run_example (example.py lines
118-278), in program order.  The attach submission passes
virtual_machine.name (line 197), the detach submission passes VM_NAME
(line 208); the OS-disk get reads the name from the VM object returned
by the detach await (lines 221-222). -/
def bodySteps (env : Env) : List Call :=
  let p := env.pfx
  let virtual_machine := env.vmFromGet
  let attached :=
    attachDataDisks virtual_machine.storage_profile.data_disks env.dataDiskId
  let detached := detachDataDisks attached
  let os_disk := resizeOsDisk env.osDiskFromGet
  .storageCreate (GROUP_NAME p) env.storage_account_name "standard_lrs" "storage"
      env.location
    :: nicSteps env
    ++ [.vmCreateOrUpdate (GROUP_NAME p) (VM_NAME p)
          (create_vm_parameters p env.password env.nicId (VM_REFERENCE .linux)
            env.location),
        .vmTagUpdate (GROUP_NAME p) (VM_NAME p) env.location,
        .diskCreate (GROUP_NAME p) "mydatadisk1" env.location 1 .empty,
        .vmGet (GROUP_NAME p) (VM_NAME p),
        .vmDiskUpdate (GROUP_NAME p) virtual_machine.name attached,
        .vmDiskUpdate (GROUP_NAME p) (VM_NAME p) detached,
        .vmDeallocate (GROUP_NAME p) (VM_NAME p),
        .diskGet (GROUP_NAME p) env.detachResult.storage_profile.os_disk.name,
        .diskUpdate (GROUP_NAME p) os_disk.name os_disk,
        .vmStart (GROUP_NAME p) (VM_NAME p),
        .vmRestart (GROUP_NAME p) (VM_NAME p),
        .vmPowerOff (GROUP_NAME p) (VM_NAME p),
        .listAllVms,
        .listVmsInGroup (GROUP_NAME p),
        .vmDelete (GROUP_NAME p) (VM_NAME p),
        .vmCreateOrUpdate (GROUP_NAME p) (VM_NAME p)
          (create_vm_parameters p env.password env.nicId (VM_REFERENCE .windows)
            env.location)]

/-- How run_example terminates: the else branch (all steps succeeded),
the except CloudError branch (normal return after a caught CloudError),
or an exception propagating out of the function. -/
inductive RunResult where
  | success
  | caughtCloudError
  | raised
  deriving DecidableEq

/-- The resource-group creation site (example.py line 116); synchronous
and outside the try block. -/
def groupCreateCall (env : Env) : Call :=
  .groupCreate (GROUP_NAME env.pfx) env.location

/-- The resource-group deletion site (example.py lines 286-288), in the
finally block. -/
def groupDeleteCall (env : Env) : Call :=
  .groupDelete (GROUP_NAME env.pfx)

/-- run_example (example.py lines 63-289).  If the group creation fails
its exception propagates before the try block is entered, so the finally
clause does not run.  Otherwise the body runs until its first failure, a
CloudError is caught (except branch) while any other exception is
re-raised after the finally clause, and the finally clause always issues
and awaits the group deletion; a failure of the deletion itself
propagates out of run_example. -/
def run_example (env : Env) : List Event × RunResult :=
  match env.outcome (groupCreateCall env) with
  | .ok =>
      (stepEvents (groupCreateCall env) ++ (runSteps env (bodySteps env)).1 ++
          stepEvents (groupDeleteCall env),
        match env.outcome (groupDeleteCall env), (runSteps env (bodySteps env)).2 with
        | .ok, .ok => .success
        | .ok, .cloudError => .caughtCloudError
        | .ok, .otherError => .raised
        | .cloudError, _ => .raised
        | .otherError, _ => .raised)
  | .cloudError => (stepEvents (groupCreateCall env), .raised)
  | .otherError => (stepEvents (groupCreateCall env), .raised)

/-- The trace of a run in which every call succeeds. -/
def successTrace (env : Env) : List Event :=
  stepEvents (groupCreateCall env) ++ eventsOf (bodySteps env) ++
    stepEvents (groupDeleteCall env)

/-! ## Trace predicates -/

def isVnetCreate : Call → Bool
  | .vnetCreate _ _ _ _ => true
  | _ => false

def isSubnetCreate : Call → Bool
  | .subnetCreate _ _ _ _ => true
  | _ => false

def isNicCreate : Call → Bool
  | .nicCreate _ _ _ _ _ => true
  | _ => false

def isGroupCreate : Call → Bool
  | .groupCreate _ _ => true
  | _ => false

def isGroupDelete : Call → Bool
  | .groupDelete _ => true
  | _ => false

def isVmDelete : Call → Bool
  | .vmDelete _ _ => true
  | _ => false

def isVmDeallocate : Call → Bool
  | .vmDeallocate _ _ => true
  | _ => false

/-- The OS-disk resize submission site. -/
def isDiskResize : Call → Bool
  | .diskUpdate _ _ _ => true
  | _ => false

/-- A full-spec VM create-or-update whose image reference is the Windows
one, i.e. the Windows VM creation site. -/
def isWindowsVmCreate : Call → Bool
  | .vmCreateOrUpdate _ _ params =>
      params.storage_profile.image_reference.offer == "WindowsServer"
  | _ => false

def issueOf (p : Call → Bool) : Event → Bool
  | .issue c => p c
  | .await _ => false

def awaitOf (p : Call → Bool) : Event → Bool
  | .await c => p c
  | .issue _ => false

/-- Every issue of a long-running call is immediately followed by the
await of that same call: nothing is issued between a long-running
submission and the wait for its terminal status. -/
def immediatelyAwaited : List Event → Bool
  | [] => true
  | .await _ :: rest => immediatelyAwaited rest
  | .issue c :: rest =>
      if isLRO c then
        match rest with
        | .await d :: _ => decide (c = d) && immediatelyAwaited rest
        | _ => false
      else immediatelyAwaited rest

/-- Every event matching b is strictly preceded by an event matching a
(and no b-event occurs before the first a-event). -/
def precedesP (a b : Event → Bool) : List Event → Bool
  | [] => true
  | e :: rest => if b e then false else if a e then true else precedesP a b rest

/-- The numeric suffix, rendered in decimal, occurs inside the name. -/
def embedsSuffix (pfx : Nat) (name : String) : Prop :=
  (toString pfx).toList <:+: name.toList

/-! ## Helper lemmas about the runner -/

theorem immediatelyAwaited_stepEvents (c : Call) (t : List Event) :
    immediatelyAwaited (stepEvents c ++ t) = immediatelyAwaited t := by
  by_cases h : isLRO c <;> simp [stepEvents, h, immediatelyAwaited]

theorem immediatelyAwaited_runSteps (env : Env) (cs : List Call) (t : List Event) :
    immediatelyAwaited ((runSteps env cs).1 ++ t) = immediatelyAwaited t := by
  induction cs with
  | nil => simp [runSteps]
  | cons c cs ih =>
      cases h : env.outcome c
      · simp only [runSteps, h, List.append_assoc, immediatelyAwaited_stepEvents]
        simpa using ih
      · simp only [runSteps, h, immediatelyAwaited_stepEvents]
      · simp only [runSteps, h, immediatelyAwaited_stepEvents]

theorem precedesP_skip (a b : Event → Bool) (l t : List Event)
    (h : ∀ e ∈ l, b e = false ∧ a e = false) :
    precedesP a b (l ++ t) = precedesP a b t := by
  induction l with
  | nil => simp
  | cons e l ih =>
      obtain ⟨hb, ha⟩ := h e (List.mem_cons_self e l)
      simp only [List.cons_append, precedesP, hb, ha, if_false]
      exact ih fun x hx => h x (List.mem_cons_of_mem e hx)

theorem precedesP_of_noB (a b : Event → Bool) (l : List Event)
    (h : ∀ e ∈ l, b e = false) :
    precedesP a b l = true := by
  induction l with
  | nil => rfl
  | cons e l ih =>
      simp only [precedesP, h e (List.mem_cons_self e l), if_false]
      by_cases ha : a e = true
      · simp [ha]
      · simp only [Bool.not_eq_true] at ha
        simp only [ha, if_false]
        exact ih fun x hx => h x (List.mem_cons_of_mem e hx)

/-- Events of a failed run segment never leave the events of its call
sites: every b-free set of call sites yields a b-free trace. -/
theorem runSteps_noB (env : Env) (b : Event → Bool) (cs : List Call)
    (h : ∀ c ∈ cs, ∀ e ∈ stepEvents c, b e = false) :
    ∀ e ∈ (runSteps env cs).1, b e = false := by
  induction cs with
  | nil => simp [runSteps]
  | cons c cs ih =>
      intro e he
      cases hc : env.outcome c <;> simp only [runSteps, hc] at he
      · rcases List.mem_append.mp he with h1 | h1
        · exact h c (List.mem_cons_self c cs) e h1
        · exact ih (fun d hd => h d (List.mem_cons_of_mem c hd)) e h1
      · exact h c (List.mem_cons_self c cs) e he
      · exact h c (List.mem_cons_self c cs) e he

/-- The workhorse for before/after ordering claims: split the call list
around a pivot long-running call cm whose await matches a; provided no
b-event can be produced before or at the pivot (nor by the trailing
events), every b-event of the run trace is preceded by an a-event. -/
theorem precedesP_runSteps (env : Env) (a b : Event → Bool) :
    ∀ (cs1 : List Call) (cm : Call) (cs2 : List Call) (t : List Event),
      (∀ c ∈ cs1, ∀ e ∈ stepEvents c, b e = false ∧ a e = false) →
      isLRO cm = true →
      b (.issue cm) = false → a (.issue cm) = false →
      b (.await cm) = false → a (.await cm) = true →
      (∀ e ∈ t, b e = false) →
      precedesP a b ((runSteps env (cs1 ++ cm :: cs2)).1 ++ t) = true := by
  intro cs1
  induction cs1 with
  | nil =>
      intro cm cs2 t _ hlro hbi hai hba haa _
      cases hc : env.outcome cm <;>
        simp only [List.nil_append, runSteps, hc, stepEvents, hlro, if_true,
          List.cons_append, List.append_assoc, precedesP, hbi, hai, hba, haa,
          if_false, if_true] <;> simp
  | cons c cs1 ih =>
      intro cm cs2 t h1 hlro hbi hai hba haa ht
      have hc1 : ∀ e ∈ stepEvents c, b e = false ∧ a e = false :=
        h1 c (List.mem_cons_self c cs1)
      cases hc : env.outcome c
      · simp only [List.cons_append, runSteps, hc, List.append_assoc]
        rw [precedesP_skip a b _ _ hc1]
        exact ih cm cs2 t (fun d hd => h1 d (List.mem_cons_of_mem c hd))
          hlro hbi hai hba haa ht
      · simp only [List.cons_append, runSteps, hc]
        refine precedesP_of_noB a b _ fun e he => ?_
        rcases List.mem_append.mp he with h2 | h2
        · exact (hc1 e h2).1
        · exact ht e h2
      · simp only [List.cons_append, runSteps, hc]
        refine precedesP_of_noB a b _ fun e he => ?_
        rcases List.mem_append.mp he with h2 | h2
        · exact (hc1 e h2).1
        · exact ht e h2

/-- A run segment that ends with outcome ok ran all its call sites
successfully and emitted exactly their events. -/
theorem runSteps_of_ok (env : Env) (cs : List Call)
    (h : (runSteps env cs).2 = .ok) :
    (runSteps env cs).1 = eventsOf cs ∧ ∀ c ∈ cs, env.outcome c = .ok := by
  induction cs with
  | nil => exact ⟨rfl, by simp⟩
  | cons c cs ih =>
      cases hc : env.outcome c
      · have h2 : (runSteps env cs).2 = .ok := by
          simpa only [runSteps, hc] using h
        obtain ⟨h3, h4⟩ := ih h2
        refine ⟨by simp only [runSteps, hc, eventsOf, h3], ?_⟩
        intro d hd
        rcases List.mem_cons.mp hd with rfl | hd
        · exact hc
        · exact h4 d hd
      · simp only [runSteps, hc] at h; exact absurd h (by simp)
      · simp only [runSteps, hc] at h; exact absurd h (by simp)

/-- Conversely, if every call site of a segment succeeds, the segment
succeeds and emits exactly their events. -/
theorem runSteps_of_all_ok (env : Env) (cs : List Call)
    (h : ∀ c ∈ cs, env.outcome c = .ok) :
    runSteps env cs = (eventsOf cs, .ok) := by
  induction cs with
  | nil => rfl
  | cons c cs ih =>
      have hc : env.outcome c = .ok := h c (List.mem_cons_self c cs)
      have hrest := ih fun d hd => h d (List.mem_cons_of_mem c hd)
      simp only [runSteps, hc, hrest, eventsOf]

/-- A successful run ran every call successfully and emitted the full
trace. -/
theorem run_example_success (env : Env)
    (h : (run_example env).2 = .success) :
    (run_example env).1 = successTrace env ∧
      env.outcome (groupCreateCall env) = .ok ∧
      env.outcome (groupDeleteCall env) = .ok ∧
      ∀ c ∈ bodySteps env, env.outcome c = .ok := by
  cases h1 : env.outcome (groupCreateCall env)
  case cloudError => simp [run_example, h1] at h
  case otherError => simp [run_example, h1] at h
  case ok =>
  cases h2 : env.outcome (groupDeleteCall env)
  case cloudError => simp [run_example, h1, h2] at h
  case otherError => simp [run_example, h1, h2] at h
  case ok =>
  cases h3 : (runSteps env (bodySteps env)).2
  case cloudError => simp [run_example, h1, h2, h3] at h
  case otherError => simp [run_example, h1, h2, h3] at h
  case ok =>
  obtain ⟨ht, hall⟩ := runSteps_of_ok env (bodySteps env) h3
  exact ⟨by simp only [run_example, h1, successTrace, ht], rfl, rfl, hall⟩

/-! ## Concrete environments used by the witnesses -/

/-- An environment in which every call succeeds, with concrete values
for the random names and the service-returned objects. -/
def sampleEnv : Env where
  outcome := fun _ => .ok
  pfx := 123
  location := "eastus"
  storage_account_name := "quietmeadow"
  password := "pw-0000"
  subnetId := "subnet-id-1"
  nicId := "nic-id-1"
  dataDiskId := "data-disk-id-1"
  vmFromGet :=
    { name := "VmName123"
      storage_profile := { os_disk := { name := "osdisk-real" }, data_disks := [] } }
  detachResult :=
    { name := "VmName123"
      storage_profile := { os_disk := { name := "osdisk-real" }, data_disks := [] } }
  osDiskFromGet := { name := "osdisk-real", disk_size_gb := none }

/-- Same as sampleEnv except that the virtual-network creation raises a
CloudError. -/
def vnetFailEnv : Env :=
  { sampleEnv with
      outcome := fun c =>
        match c with
        | .vnetCreate _ _ _ _ => .cloudError
        | _ => .ok }

/-! ## Claims -/

/-- Claim C1: for every run in which the resource-group creation call
succeeds, the resource-group delete is issued and awaited on every exit
path of run_example (normal completion, a caught CloudError, and any
other uncaught exception of an intermediate step): the trace always
ends with the issue and the await of the group deletion, whatever the
outcomes of the body steps and of the deletion itself. -/
theorem claim_C1_cleanup_on_every_exit (env : Env)
    (h : env.outcome (groupCreateCall env) = .ok) :
    ∃ t, (run_example env).1 =
      t ++ [.issue (groupDeleteCall env), .await (groupDeleteCall env)] := by
  refine ⟨stepEvents (groupCreateCall env) ++ (runSteps env (bodySteps env)).1, ?_⟩
  simp [run_example, h, stepEvents, isLRO, groupDeleteCall]

theorem claim_C1_witness :
    sampleEnv.outcome (groupCreateCall sampleEnv) = .ok ∧
      ∃ t, (run_example sampleEnv).1 =
        t ++ [.issue (groupDeleteCall sampleEnv), .await (groupDeleteCall sampleEnv)] :=
  ⟨rfl, claim_C1_cleanup_on_every_exit sampleEnv rfl⟩

/-- Claim C2: in the OS-disk resize step, an absent or zero reported
disk_size_gb leads to submitting the 30 GB baseline plus the 10 GB
delta, exactly 40 GB, and the step does not fail on the missing field
(its embedding resizeOsDisk is a total function); a positive reported
size s leads to submitting s + 10 GB.  The disk submitted at the resize
site of the run body is exactly resizeOsDisk of the disk returned by
the get call. -/
theorem claim_C2_resize_default :
    (∀ n, (resizeOsDisk { name := n, disk_size_gb := none }).disk_size_gb =
        some 40) ∧
    (∀ n, (resizeOsDisk { name := n, disk_size_gb := some 0 }).disk_size_gb =
        some 40) ∧
    (∀ n s, 0 < s →
      (resizeOsDisk { name := n, disk_size_gb := some s }).disk_size_gb =
        some (s + 10)) ∧
    (∀ env : Env,
      Call.diskUpdate (GROUP_NAME env.pfx) (resizeOsDisk env.osDiskFromGet).name
        (resizeOsDisk env.osDiskFromGet) ∈ bodySteps env) := by
  refine ⟨fun n => rfl, fun n => rfl, fun n s hs => ?_, fun env => ?_⟩
  · have hne : (s == 0) = false := by simp [Nat.pos_iff_ne_zero.mp hs]
    simp [resizeOsDisk, sizeFalsy, hne]
  · simp [bodySteps, nicSteps]

theorem claim_C2_witness :
    0 < 25 ∧
      (resizeOsDisk { name := "d", disk_size_gb := some 25 }).disk_size_gb =
        some (25 + 10) :=
  ⟨by decide, claim_C2_resize_default.2.2.1 "d" 25 (by decide)⟩

/-- A data disk that happens to bear the name "mydatadisk1" already
before the attach step. -/
def preexistingDisk : DataDisk :=
  { lun := 0, name := "mydatadisk1", create_option := .empty,
    managed_disk_id := "preexisting" }

/-- A data disk with an unrelated name. -/
def otherDisk : DataDisk :=
  { lun := 3, name := "otherdisk", create_option := .empty,
    managed_disk_id := "x" }

/-- Claim C3, counterexample: the claim quantifies over every initial
data-disk list, but when the initial list already contains an entry
named "mydatadisk1" the detach filter removes it too, so attach
followed by detach does not restore the list even up to order. -/
theorem claim_C3_counterexample :
    ¬ (detachDataDisks (attachDataDisks [preexistingDisk] "newid")).Perm
        [preexistingDisk] := by
  decide

/-- Claim C3 as amended: for every initial data-disk list none of whose
entries is named "mydatadisk1" (as holds for the freshly created VM of
the run), attaching the "mydatadisk1" descriptor and then detaching by
that name restores the list exactly (in particular up to order). -/
theorem claim_C3_attach_detach_roundtrip (l : List DataDisk)
    (data_disk_id : String) (h : ∀ d ∈ l, d.name ≠ "mydatadisk1") :
    detachDataDisks (attachDataDisks l data_disk_id) = l := by
  unfold attachDataDisks detachDataDisks
  rw [List.filter_append]
  have h1 : List.filter (fun disk => disk.name != "mydatadisk1")
      [attachedDataDisk data_disk_id] = [] := by
    simp [attachedDataDisk]
  rw [h1, List.append_nil]
  exact List.filter_eq_self.mpr fun d hd => by simp [h d hd]

theorem claim_C3_witness :
    (∀ d ∈ [otherDisk], d.name ≠ "mydatadisk1") ∧
      detachDataDisks (attachDataDisks [otherDisk] "nid") = [otherDisk] :=
  ⟨by decide, claim_C3_attach_detach_roundtrip _ "nid" (by decide)⟩

/-- Claim C9: the detach step removes every entry named "mydatadisk1"
and keeps all other entries in their original order (the result is a
sublist of the input containing every differently-named entry);
detaching when the name is absent leaves the list unchanged, and detach
is idempotent. -/
theorem claim_C9_detach_semantics (l : List DataDisk) :
    (∀ d ∈ detachDataDisks l, d.name ≠ "mydatadisk1") ∧
    List.Sublist (detachDataDisks l) l ∧
    (∀ d ∈ l, d.name ≠ "mydatadisk1" → d ∈ detachDataDisks l) ∧
    ((∀ d ∈ l, d.name ≠ "mydatadisk1") → detachDataDisks l = l) ∧
    detachDataDisks (detachDataDisks l) = detachDataDisks l := by
  refine ⟨?_, List.filter_sublist l, ?_, ?_, ?_⟩
  · intro d hd
    have h1 := List.of_mem_filter hd
    simpa using h1
  · intro d hd hname
    exact List.mem_filter.mpr ⟨hd, by simp [hname]⟩
  · intro h
    exact List.filter_eq_self.mpr fun d hd => by simp [h d hd]
  · unfold detachDataDisks
    rw [List.filter_filter]
    simp

theorem claim_C9_witness :
    (∀ d ∈ [otherDisk], d.name ≠ "mydatadisk1") ∧
      detachDataDisks [otherDisk] = [otherDisk] :=
  ⟨by decide, (claim_C9_detach_semantics _).2.2.2.1 (by decide)⟩

/-- Claim C4: create_nic issues its three long-running creations in the
order virtual network, subnet, interface, awaiting each to completion
before the next is issued (every issue is immediately followed by its
await, every subnet issue is preceded by a vnet await, every interface
issue by a subnet await), and if the virtual-network creation fails the
call aborts with no result and with a trace containing only the
virtual-network events, so neither the subnet nor the interface call is
issued. -/
theorem claim_C4_nic_order_failfast (env : Env) :
    immediatelyAwaited (create_nic env).1 = true ∧
    precedesP (awaitOf isVnetCreate) (issueOf isSubnetCreate)
      (create_nic env).1 = true ∧
    precedesP (awaitOf isSubnetCreate) (issueOf isNicCreate)
      (create_nic env).1 = true ∧
    (env.outcome (vnetStep env) ≠ .ok →
      (create_nic env).1 = [.issue (vnetStep env), .await (vnetStep env)] ∧
      (create_nic env).2 = none) := by
  refine ⟨?_, ?_, ?_, ?_⟩
  · show immediatelyAwaited (runSteps env (nicSteps env)).1 = true
    simpa using immediatelyAwaited_runSteps env (nicSteps env) []
  · have h := precedesP_runSteps env (awaitOf isVnetCreate) (issueOf isSubnetCreate)
      [] (vnetStep env) [subnetStep env, nicStep env] []
      (by simp) rfl rfl rfl rfl rfl (by simp)
    show precedesP _ _ (runSteps env (nicSteps env)).1 = true
    simpa [nicSteps] using h
  · have h := precedesP_runSteps env (awaitOf isSubnetCreate) (issueOf isNicCreate)
      [vnetStep env] (subnetStep env) [nicStep env] []
      (by
        intro c hc
        simp only [List.mem_singleton] at hc
        subst hc
        simp [vnetStep, stepEvents, isLRO, issueOf, awaitOf, isNicCreate,
          isSubnetCreate])
      rfl rfl rfl rfl rfl (by simp)
    show precedesP _ _ (runSteps env (nicSteps env)).1 = true
    simpa [nicSteps] using h
  · intro hne
    have hse : stepEvents (vnetStep env) =
        [.issue (vnetStep env), .await (vnetStep env)] := rfl
    cases hv : env.outcome (vnetStep env) with
    | ok => exact absurd hv hne
    | cloudError =>
        exact ⟨by simp [create_nic, nicSteps, runSteps, hv, hse],
          by simp [create_nic, nicSteps, runSteps, hv]⟩
    | otherError =>
        exact ⟨by simp [create_nic, nicSteps, runSteps, hv, hse],
          by simp [create_nic, nicSteps, runSteps, hv]⟩

theorem claim_C4_witness :
    vnetFailEnv.outcome (vnetStep vnetFailEnv) ≠ .ok ∧
      ((create_nic vnetFailEnv).1 =
          [.issue (vnetStep vnetFailEnv), .await (vnetStep vnetFailEnv)] ∧
        (create_nic vnetFailEnv).2 = none) :=
  ⟨by decide, (claim_C4_nic_order_failfast vnetFailEnv).2.2.2 (by decide)⟩

/-- Claim C7: on every run, every long-running mutating call issued by
run_example (storage create, the VM create/update sites, disk
create/update, deallocate, start, restart, power off, VM delete, group
delete) has its issue immediately followed by the explicit await of its
result, so it reaches a terminal status before anything else is issued;
in particular every OS-disk resize submission is preceded by the await
of the VM deallocation. -/
theorem claim_C7_await_before_next (env : Env) :
    immediatelyAwaited (run_example env).1 = true ∧
    precedesP (awaitOf isVmDeallocate) (issueOf isDiskResize)
      (run_example env).1 = true := by
  constructor
  · cases h : env.outcome (groupCreateCall env)
    case ok =>
      simp only [run_example, h, List.append_assoc]
      rw [immediatelyAwaited_stepEvents, immediatelyAwaited_runSteps]
      simp [stepEvents, isLRO, groupDeleteCall, immediatelyAwaited]
    case cloudError =>
      simp only [run_example, h]
      simp [stepEvents, isLRO, groupCreateCall, immediatelyAwaited]
    case otherError =>
      simp only [run_example, h]
      simp [stepEvents, isLRO, groupCreateCall, immediatelyAwaited]
  · cases h : env.outcome (groupCreateCall env)
    case ok =>
      have hskip : ∀ e ∈ stepEvents (groupCreateCall env),
          issueOf isDiskResize e = false ∧ awaitOf isVmDeallocate e = false := by
        simp [groupCreateCall, stepEvents, isLRO, issueOf, awaitOf, isDiskResize,
          isVmDeallocate]
      have hsplit : bodySteps env =
          [.storageCreate (GROUP_NAME env.pfx) env.storage_account_name
              "standard_lrs" "storage" env.location,
            vnetStep env, subnetStep env, nicStep env,
            .vmCreateOrUpdate (GROUP_NAME env.pfx) (VM_NAME env.pfx)
              (create_vm_parameters env.pfx env.password env.nicId
                (VM_REFERENCE .linux) env.location),
            .vmTagUpdate (GROUP_NAME env.pfx) (VM_NAME env.pfx) env.location,
            .diskCreate (GROUP_NAME env.pfx) "mydatadisk1" env.location 1 .empty,
            .vmGet (GROUP_NAME env.pfx) (VM_NAME env.pfx),
            .vmDiskUpdate (GROUP_NAME env.pfx) env.vmFromGet.name
              (attachDataDisks env.vmFromGet.storage_profile.data_disks
                env.dataDiskId),
            .vmDiskUpdate (GROUP_NAME env.pfx) (VM_NAME env.pfx)
              (detachDataDisks (attachDataDisks
                env.vmFromGet.storage_profile.data_disks env.dataDiskId))] ++
          Call.vmDeallocate (GROUP_NAME env.pfx) (VM_NAME env.pfx) ::
          [.diskGet (GROUP_NAME env.pfx)
              env.detachResult.storage_profile.os_disk.name,
            .diskUpdate (GROUP_NAME env.pfx) (resizeOsDisk env.osDiskFromGet).name
              (resizeOsDisk env.osDiskFromGet),
            .vmStart (GROUP_NAME env.pfx) (VM_NAME env.pfx),
            .vmRestart (GROUP_NAME env.pfx) (VM_NAME env.pfx),
            .vmPowerOff (GROUP_NAME env.pfx) (VM_NAME env.pfx),
            .listAllVms,
            .listVmsInGroup (GROUP_NAME env.pfx),
            .vmDelete (GROUP_NAME env.pfx) (VM_NAME env.pfx),
            .vmCreateOrUpdate (GROUP_NAME env.pfx) (VM_NAME env.pfx)
              (create_vm_parameters env.pfx env.password env.nicId
                (VM_REFERENCE .windows) env.location)] := by
        simp [bodySteps, nicSteps, vnetStep, subnetStep, nicStep]
      simp only [run_example, h, List.append_assoc]
      rw [precedesP_skip _ _ _ _ hskip, hsplit]
      exact precedesP_runSteps env (awaitOf isVmDeallocate) (issueOf isDiskResize)
        _ _ _ _
        (by
          intro c hc
          simp only [List.mem_cons, List.not_mem_nil, or_false] at hc
          rcases hc with rfl | rfl | rfl | rfl | rfl | rfl | rfl | rfl | rfl | rfl <;>
            simp [stepEvents, isLRO, vnetStep, subnetStep, nicStep, issueOf,
              awaitOf, isDiskResize, isVmDeallocate])
        rfl rfl rfl rfl rfl
        (by simp [groupDeleteCall, stepEvents, isLRO, issueOf, isDiskResize])
    case cloudError =>
      simp only [run_example, h]
      simp [stepEvents, isLRO, groupCreateCall, precedesP, issueOf, awaitOf,
        isDiskResize, isVmDeallocate]
    case otherError =>
      simp only [run_example, h]
      simp [stepEvents, isLRO, groupCreateCall, precedesP, issueOf, awaitOf,
        isDiskResize, isVmDeallocate]

/-- Claim C5: every successful run issues exactly one resource-group
create call and exactly one resource-group delete call, regardless of
how many child-resource calls the body performs. -/
theorem claim_C5_one_group_create_one_delete (env : Env)
    (h : (run_example env).2 = .success) :
    (run_example env).1.countP (issueOf isGroupCreate) = 1 ∧
    (run_example env).1.countP (issueOf isGroupDelete) = 1 := by
  obtain ⟨ht, -, -, -⟩ := run_example_success env h
  rw [ht]
  constructor <;>
    simp [successTrace, bodySteps, nicSteps, vnetStep, subnetStep, nicStep,
      eventsOf, stepEvents, isLRO, groupCreateCall, groupDeleteCall, issueOf,
      isGroupCreate, isGroupDelete, List.countP_cons, List.countP_append]

theorem claim_C5_witness :
    (run_example sampleEnv).2 = .success ∧
      (run_example sampleEnv).1.countP (issueOf isGroupCreate) = 1 :=
  ⟨by decide, (claim_C5_one_group_create_one_delete sampleEnv (by decide)).1⟩

/-- Claim C6: on a successful run, create_nic returns the interface
whose id the service reported, the Windows VM create-or-update submits
parameters built from that same id (their network profile references
exactly that id), and the trace contains exactly one network-interface
creation, so no new interface is created for the Windows VM. -/
theorem claim_C6_nic_reuse (env : Env)
    (h : (run_example env).2 = .success) :
    (create_nic env).2 = some { id := env.nicId } ∧
    Event.issue (.vmCreateOrUpdate (GROUP_NAME env.pfx) (VM_NAME env.pfx)
        (create_vm_parameters env.pfx env.password env.nicId
          (VM_REFERENCE .windows) env.location)) ∈ (run_example env).1 ∧
    (create_vm_parameters env.pfx env.password env.nicId
        (VM_REFERENCE .windows) env.location).network_profile.network_interfaces =
      [{ id := env.nicId }] ∧
    (run_example env).1.countP (issueOf isNicCreate) = 1 := by
  obtain ⟨ht, -, -, hall⟩ := run_example_success env h
  refine ⟨?_, ?_, rfl, ?_⟩
  · have hnic : ∀ c ∈ nicSteps env, env.outcome c = .ok := by
      intro c hc
      refine hall c ?_
      simp only [bodySteps, List.cons_append, List.mem_cons, List.mem_append]
      tauto
    have hrun := runSteps_of_all_ok env (nicSteps env) hnic
    simp [create_nic, hrun]
  · rw [ht]
    simp [successTrace, bodySteps, nicSteps, vnetStep, subnetStep, nicStep,
      eventsOf, stepEvents, isLRO, groupCreateCall, groupDeleteCall]
  · rw [ht]
    simp [successTrace, bodySteps, nicSteps, vnetStep, subnetStep, nicStep,
      eventsOf, stepEvents, isLRO, groupCreateCall, groupDeleteCall, issueOf,
      isNicCreate, List.countP_cons, List.countP_append]

theorem claim_C6_witness :
    (run_example sampleEnv).2 = .success ∧
      (create_nic sampleEnv).2 = some { id := sampleEnv.nicId } :=
  ⟨by decide, (claim_C6_nic_reuse sampleEnv (by decide)).1⟩

/-- Claim C10: in a successful run both VM creations are submitted in
group GROUP_NAME under the single name VM_NAME (every full-spec VM
create-or-update issue in the trace targets that group and that name),
and every Windows VM create issue is preceded by the await of the VM
delete, so the Windows VM is created only after the Linux VM's deletion
has completed; hence at most one VM (the one named VM_NAME) exists at
any point of the run under the provider's name-keyed semantics. -/
theorem claim_C10_single_vm (env : Env)
    (h : (run_example env).2 = .success) :
    (∀ g n ps, Event.issue (.vmCreateOrUpdate g n ps) ∈ (run_example env).1 →
      g = GROUP_NAME env.pfx ∧ n = VM_NAME env.pfx) ∧
    precedesP (awaitOf isVmDelete) (issueOf isWindowsVmCreate)
      (run_example env).1 = true := by
  obtain ⟨ht, -, -, -⟩ := run_example_success env h
  rw [ht]
  constructor
  · intro g n ps hmem
    simp [successTrace, bodySteps, nicSteps, vnetStep, subnetStep, nicStep,
      eventsOf, stepEvents, isLRO, groupCreateCall, groupDeleteCall] at hmem
    rcases hmem with ⟨h1, h2, -⟩ | ⟨h1, h2, -⟩ <;> exact ⟨h1, h2⟩
  · simp [successTrace, bodySteps, nicSteps, vnetStep, subnetStep, nicStep,
      eventsOf, stepEvents, isLRO, groupCreateCall, groupDeleteCall, precedesP,
      issueOf, awaitOf, isVmDelete, isWindowsVmCreate, create_vm_parameters,
      VM_REFERENCE]

theorem claim_C10_witness :
    (run_example sampleEnv).2 = .success ∧
      precedesP (awaitOf isVmDelete) (issueOf isWindowsVmCreate)
        (run_example sampleEnv).1 = true :=
  ⟨by decide, (claim_C10_single_vm sampleEnv (by decide)).2⟩

/-- Claim C8, counterexample: the run creates the managed data disk
under the fixed name "mydatadisk1" (shown here in the concrete run of
sampleEnv, whose suffix is 123); that name does not embed the suffix,
so it is false that every resource created by the run has a name
embedding the shared random suffix.  (The storage-account name is
likewise generated by haikunator independently of the suffix.) -/
theorem claim_C8_counterexample :
    Call.diskCreate (GROUP_NAME sampleEnv.pfx) "mydatadisk1" sampleEnv.location
        1 .empty ∈ bodySteps sampleEnv ∧
      ¬ embedsSuffix sampleEnv.pfx "mydatadisk1" := by
  constructor
  · simp [bodySteps, nicSteps]
  · show ¬ (toString sampleEnv.pfx).toList <:+: "mydatadisk1".toList
    decide

theorem embedsSuffix_of_append (p : Nat) (s : String) :
    embedsSuffix p (s ++ toString p) := by
  show (toString p).toList <:+: (s ++ toString p).toList
  show (toString p).toList <:+: s.toList ++ (toString p).toList
  exact (List.suffix_append _ _).isInfix

/-- Claim C8 as amended: all names are fixed once at process start; the
group, virtual-network, subnet, OS-disk constant, IP-config, interface
and VM names all embed the same numeric suffix, but the data disk is
created under the fixed name "mydatadisk1" (and the storage-account
name is generated independently of the suffix), so not every created
resource's name embeds the suffix. -/
theorem claim_C8_shared_suffix :
    (∀ p : Nat,
      embedsSuffix p (GROUP_NAME p) ∧ embedsSuffix p (VNET_NAME p) ∧
      embedsSuffix p (SUBNET_NAME p) ∧ embedsSuffix p (OS_DISK_NAME p) ∧
      embedsSuffix p (IP_CONFIG_NAME p) ∧ embedsSuffix p (NIC_NAME p) ∧
      embedsSuffix p (VM_NAME p)) ∧
    (∀ env : Env,
      Call.diskCreate (GROUP_NAME env.pfx) "mydatadisk1" env.location 1 .empty
        ∈ bodySteps env) := by
  constructor
  · intro p
    exact ⟨embedsSuffix_of_append p _, embedsSuffix_of_append p _,
      embedsSuffix_of_append p _, embedsSuffix_of_append p _,
      embedsSuffix_of_append p _, embedsSuffix_of_append p _,
      embedsSuffix_of_append p _⟩
  · intro env
    simp [bodySteps, nicSteps]

end VmExample
